import Mathlib

/-!
# Verification of the Hero CRUD service
  (docs_src/nosql_databases/tutorial001.py)

Shallow embedding of the FastAPI + MongoDB "heroes" CRUD application and
proofs about its endpoint behaviour.

Modelling choices, all taken from the source:

* A MongoDB `ObjectId` is a 12-byte value; we model its value as a `Nat`
  (below `2 ^ 96`).  Its string form is the 24-character hexadecimal
  rendering (`bson.ObjectId(str)` accepts exactly a 24-character hex
  string and `str(ObjectId)` produces one); `ObjectId.parse` models the
  `ObjectId(hero_id)` constructor call of the handlers, which raises on
  malformed input.
* The collection is an insertion-ordered list of documents, matching the
  in-repo model of the store
  (tests/test_tutorial/test_nosql_databases/test_tutorial001.py keeps the
  documents in an insertion-ordered dict); `insert_one` appends,
  `find_one` returns the first match, `update_one` / `delete_one` touch
  the first match and report `matched_count` / `deleted_count`.
* The store assigns the identifier of an inserted document; we pass the
  assigned identifier as an explicit argument (`newId`) and state
  freshness (`newId` differs from every stored identifier, as the spec's
  uniqueness invariant demands) as a hypothesis where needed.
* Request-body and query validation performed by FastAPI/pydantic before
  the handler runs (required fields of `Hero`, the `PyObjectId` chain
  validator on a client-supplied id, `Query(le=100)` on `limit`) is part
  of each endpoint function; a failure is the 422 `validation` outcome,
  except that on a malformed id string the `PyObjectId` chain validator
  raises `bson.errors.InvalidId`, which is not a `ValueError`, so
  pydantic does not convert it to a `ValidationError`: it propagates as
  an unhandled exception, the `serverError` outcome.
* `skip`/`limit` pagination follows the repository's collection model,
  Python slices `docs[skip:][:limit]` (`pyDropFrom`/`pyTakeTo` reproduce
  Python slice indexing, including negative indices).
* HTTP outcomes are an `Except HTTPError` value: 400 `badRequest`
  (invalid id format), 404 `notFound`, 422 `validation`, and
  `serverError` for an unhandled exception (a stored document that fails
  `Hero(**document)` re-validation).  Mutating endpoints also return the
  resulting collection.
-/

/-! ## ObjectId: 24-character hexadecimal identifiers -/

/-- Hexadecimal digit characters, upper or lower case
(`bytes.fromhex` accepts both). -/
def isHexDigit (c : Char) : Bool :=
  ('0' ≤ c && c ≤ '9') || ('a' ≤ c && c ≤ 'f') || ('A' ≤ c && c ≤ 'F')

/-- A string is a syntactically valid `ObjectId` iff it is exactly 24
hexadecimal characters (`bson.ObjectId.__validate` for `str` input). -/
def isValidOidString (s : String) : Bool :=
  s.data.length == 24 && s.data.all isHexDigit

/-- Numeric value of one hexadecimal digit character. -/
def hexDigitVal (c : Char) : Nat :=
  if '0' ≤ c && c ≤ '9' then c.toNat - '0'.toNat
  else if 'a' ≤ c && c ≤ 'f' then c.toNat - 'a'.toNat + 10
  else c.toNat - 'A'.toNat + 10

/-- Numeric value of a big-endian list of hexadecimal digit characters. -/
def hexVal (l : List Char) : Nat :=
  l.foldl (fun a c => 16 * a + hexDigitVal c) 0

/-- `ObjectId(hero_id)`: parse a string into an identifier value,
`none` on malformed input (the constructor raises `InvalidId`). -/
def ObjectId.parse (s : String) : Option Nat :=
  if isValidOidString s then some (hexVal s.data) else none

/-- Lower-case hexadecimal digit character for `n < 16`. -/
def hexDigitChar (n : Nat) : Char :=
  if n < 10 then Char.ofNat ('0'.toNat + n) else Char.ofNat ('a'.toNat + n - 10)

/-- Fixed-width big-endian hexadecimal rendering (least significant digit
last). -/
def toHexList : Nat → Nat → List Char
  | 0, _ => []
  | w + 1, n => toHexList w (n / 16) ++ [hexDigitChar (n % 16)]

/-- `str(ObjectId)`: the canonical 24-character lower-case hexadecimal
string of an identifier value. -/
def oidToString (n : Nat) : String :=
  ⟨toHexList 24 n⟩

/-! ## Data model -/

/-- A stored document of the `heroes` collection.  MongoDB documents are
schemaless: any of the non-id fields may be absent or null (written
`none`), e.g. after an update that `$set` a field to null. -/
structure HeroDoc where
  _id : Nat
  name : Option String
  age : Option Int
  secret_name : Option String
deriving Repr, DecidableEq

/-- The `Hero` pydantic model: `id` optional, `name`/`secret_name`
required strings, `age` optional int. -/
structure Hero where
  id : Option Nat
  name : String
  age : Option Int
  secret_name : String
deriving Repr, DecidableEq

/-- `Hero(**document)`: re-validate a stored document as a `Hero`.
Fails (pydantic `ValidationError`) when `name` or `secret_name` is
absent or null. -/
def Hero.ofDoc (d : HeroDoc) : Option Hero :=
  match d.name, d.secret_name with
  | some n, some sn => some ⟨some d._id, n, d.age, sn⟩
  | _, _ => none

/-- The `HeroUpdate` pydantic model after `model_dump(exclude_unset=True)`:
for each field, the outer `Option` records whether the client set the
field at all, the inner one whether it was set to null. -/
structure HeroUpdate where
  name : Option (Option String)
  age : Option (Option Int)
  secret_name : Option (Option String)
deriving Repr, DecidableEq

/-- `len(hero.model_dump(exclude_unset=True))`: how many fields the
client explicitly set. -/
def numSet (u : HeroUpdate) : Nat :=
  (if u.name.isSome then 1 else 0) + (if u.age.isSome then 1 else 0) +
    (if u.secret_name.isSome then 1 else 0)

/-- MongoDB `$set` with the explicitly-set fields of `u`: a set field
overwrites the stored value (with null when the client sent null), an
unset field is left alone; `_id` is never part of the update document. -/
def applySet (u : HeroUpdate) (d : HeroDoc) : HeroDoc :=
  { d with
    name := match u.name with | some v => v | none => d.name
    age := match u.age with | some v => v | none => d.age
    secret_name := match u.secret_name with | some v => v | none => d.secret_name }

/-- The raw JSON body of a `POST /heroes/` request, field-typed: each
field is absent, explicitly null, or a value. -/
structure RawHero where
  id : Option (Option String)
  name : Option (Option String)
  age : Option (Option Int)
  secret_name : Option (Option String)
deriving Repr, DecidableEq

/-- HTTP error outcomes of the endpoints. -/
inductive HTTPError where
  /-- 400, "Invalid hero ID format". -/
  | badRequest
  /-- 404, "Hero not found". -/
  | notFound
  /-- 422, request validation failure (FastAPI, before the handler). -/
  | validation
  /-- 500, unhandled exception. -/
  | serverError
deriving Repr, DecidableEq

/-- Pydantic validation of a `POST /heroes/` body against the `Hero`
model, validating fields in declaration order (`id` first).  A present
non-null `id` runs the `PyObjectId` chain validator (`str` then
`ObjectId`); on a malformed string, `ObjectId` raises
`bson.errors.InvalidId`, which is not a `ValueError`, so pydantic does
not record a validation failure: the exception propagates and the
request fails as an unhandled exception (`serverError`).  Otherwise
`name` and `secret_name` must be present non-null strings (missing
required fields are a 422 `ValidationError`) and `age` defaults to
null. -/
def validateHero (r : RawHero) : Except HTTPError Hero :=
  match r.id with
  | some (some s) =>
    match ObjectId.parse s with
    | none => .error .serverError
    | some oid =>
      match r.name, r.secret_name with
      | some (some n), some (some sn) => .ok ⟨some oid, n, r.age.join, sn⟩
      | _, _ => .error .validation
  | _ =>
    match r.name, r.secret_name with
    | some (some n), some (some sn) => .ok ⟨none, n, r.age.join, sn⟩
    | _, _ => .error .validation

/-! ## The collection and its operations -/

abbrev Collection := List HeroDoc

/-- `collection.find_one({"_id": object_id})`: first document with the
given identifier. -/
def find_one (c : Collection) (oid : Nat) : Option HeroDoc :=
  c.find? (fun d => d._id == oid)

/-- `collection.insert_one(doc)`: append the document (insertion order). -/
def insert_one (c : Collection) (d : HeroDoc) : Collection :=
  c ++ [d]

/-- `collection.update_one({"_id": oid}, {"$set": fields})`: apply the
set to the first matching document; second component is
`matched_count`. -/
def update_one (c : Collection) (oid : Nat) (u : HeroUpdate) : Collection × Nat :=
  match c with
  | [] => ([], 0)
  | d :: rest =>
    if d._id == oid then (applySet u d :: rest, 1)
    else (d :: (update_one rest oid u).1, (update_one rest oid u).2)

/-- `collection.delete_one({"_id": oid})`: remove the first matching
document; second component is `deleted_count`. -/
def delete_one (c : Collection) (oid : Nat) : Collection × Nat :=
  match c with
  | [] => ([], 0)
  | d :: rest =>
    if d._id == oid then (rest, 1)
    else (d :: (delete_one rest oid).1, (delete_one rest oid).2)

/-- Python slice `xs[i:]` (negative index counts from the end). -/
def pyDropFrom (xs : List HeroDoc) (i : Int) : List HeroDoc :=
  if 0 ≤ i then xs.drop i.toNat else xs.drop (xs.length - (-i).toNat)

/-- Python slice `xs[:i]` (negative index counts from the end). -/
def pyTakeTo (xs : List HeroDoc) (i : Int) : List HeroDoc :=
  if 0 ≤ i then xs.take i.toNat else xs.take (xs.length - (-i).toNat)

/-! ## Identifier serialization round trip -/

theorem toHexList_length (w n : Nat) : (toHexList w n).length = w := by
  induction w generalizing n with
  | zero => rfl
  | succ w ih => simp [toHexList, ih]

theorem hexDigitChar_inv : ∀ d : Nat, d < 16 →
    isHexDigit (hexDigitChar d) = true ∧ hexDigitVal (hexDigitChar d) = d := by
  decide

theorem toHexList_all_hex (w n : Nat) : ∀ c ∈ toHexList w n, isHexDigit c = true := by
  induction w generalizing n with
  | zero => intro c hc; simp [toHexList] at hc
  | succ w ih =>
    intro c hc
    rw [toHexList, List.mem_append] at hc
    rcases hc with h | h
    · exact ih _ _ h
    · rw [List.mem_singleton] at h
      subst h
      exact (hexDigitChar_inv (n % 16) (Nat.mod_lt n (by decide))).1

theorem hexVal_append (l : List Char) (c : Char) :
    hexVal (l ++ [c]) = 16 * hexVal l + hexDigitVal c := by
  simp [hexVal, List.foldl_append]

theorem hexVal_toHexList (w n : Nat) : hexVal (toHexList w n) = n % 16 ^ w := by
  induction w generalizing n with
  | zero => simp [toHexList, hexVal, Nat.mod_one]
  | succ w ih =>
    rw [toHexList, hexVal_append, ih,
      (hexDigitChar_inv (n % 16) (Nat.mod_lt n (by decide))).2]
    have hpow : (16 : Nat) ^ (w + 1) = 16 * 16 ^ w := by
      rw [Nat.pow_succ, Nat.mul_comm]
    rw [hpow, Nat.mod_mul]
    omega

theorem parse_oidToString {n : Nat} (h : n < 2 ^ 96) :
    ObjectId.parse (oidToString n) = some n := by
  have hdata : (oidToString n).data = toHexList 24 n := rfl
  have hvalid : isValidOidString (oidToString n) = true := by
    rw [isValidOidString, hdata]
    simp only [Bool.and_eq_true, beq_iff_eq, List.all_eq_true, decide_eq_true_eq]
    exact ⟨toHexList_length 24 n, toHexList_all_hex 24 n⟩
  rw [ObjectId.parse, if_pos hvalid, hdata, hexVal_toHexList]
  have hpow : (16 : Nat) ^ 24 = 2 ^ 96 := by norm_num
  rw [Nat.mod_eq_of_lt (hpow ▸ h)]

theorem oidToString_length (n : Nat) : (oidToString n).length = 24 := by
  show (oidToString n).data.length = 24
  exact toHexList_length 24 n

/-! ## Store-operation lemmas -/

theorem find_one_eq_none {c : Collection} {oid : Nat} :
    find_one c oid = none ↔ ∀ d ∈ c, d._id ≠ oid := by
  simp [find_one, List.find?_eq_none]

theorem find_one_some_id {c : Collection} {oid : Nat} {d : HeroDoc}
    (h : find_one c oid = some d) : d._id = oid := by
  have := List.find?_some h
  simpa using this

theorem find_one_append_fresh {c : Collection} {oid : Nat} {d : HeroDoc}
    (hfresh : ∀ x ∈ c, x._id ≠ oid) (hd : d._id = oid) :
    find_one (c ++ [d]) oid = some d := by
  induction c with
  | nil =>
    simp [find_one, List.find?, hd]
  | cons x rest ih =>
    have hx : x._id ≠ oid := hfresh x (by simp)
    rw [List.cons_append]
    show List.find? _ (x :: (rest ++ [d])) = some d
    rw [List.find?_cons_of_neg _ (by simpa using hx)]
    exact ih fun y hy => hfresh y (by simp [hy])

theorem applySet_id (u : HeroUpdate) (d : HeroDoc) : (applySet u d)._id = d._id := rfl

theorem update_one_of_not_found {c : Collection} {oid : Nat} (u : HeroUpdate)
    (h : find_one c oid = none) : update_one c oid u = (c, 0) := by
  induction c with
  | nil => rfl
  | cons d rest ih =>
    rw [find_one_eq_none] at h
    have hd : (d._id == oid) = false := by
      simpa using h d (by simp)
    have hrest : find_one rest oid = none :=
      find_one_eq_none.mpr fun x hx => (h x (by simp [hx]))
    have := ih hrest
    simp [update_one, hd, this]

theorem update_one_of_found {c : Collection} {oid : Nat} {d : HeroDoc} (u : HeroUpdate)
    (h : find_one c oid = some d) :
    (update_one c oid u).2 = 1 ∧
      find_one (update_one c oid u).1 oid = some (applySet u d) := by
  induction c with
  | nil => simp [find_one, List.find?] at h
  | cons x rest ih =>
    by_cases hx : x._id = oid
    · have hfind : find_one (x :: rest) oid = some x := by
        simp [find_one, List.find?_cons_of_pos, hx]
      rw [hfind] at h
      injection h with h
      subst h
      have happ : ((applySet u x)._id == oid) = true := by
        simp [applySet_id, hx]
      have hupd : update_one (x :: rest) oid u = (applySet u x :: rest, 1) := by
        simp [update_one, hx]
      refine ⟨by rw [hupd], ?_⟩
      rw [hupd]
      exact List.find?_cons_of_pos rest
        (show (fun d => d._id == oid) (applySet u x) = true from happ)
    · have hfind : find_one (x :: rest) oid = find_one rest oid := by
        simp [find_one, List.find?_cons_of_neg, hx]
      rw [hfind] at h
      obtain ⟨h1, h2⟩ := ih h
      constructor
      · simpa [update_one, hx] using h1
      · simpa [update_one, hx, find_one, List.find?_cons_of_neg] using h2

theorem delete_one_of_not_found {c : Collection} {oid : Nat}
    (h : find_one c oid = none) : delete_one c oid = (c, 0) := by
  induction c with
  | nil => rfl
  | cons d rest ih =>
    rw [find_one_eq_none] at h
    have hd : (d._id == oid) = false := by
      simpa using h d (by simp)
    have hrest : find_one rest oid = none :=
      find_one_eq_none.mpr fun x hx => (h x (by simp [hx]))
    have := ih hrest
    simp [delete_one, hd, this]

theorem delete_one_of_found {c : Collection} {oid : Nat} {d : HeroDoc}
    (h : find_one c oid = some d) : (delete_one c oid).2 = 1 := by
  induction c with
  | nil => simp [find_one, List.find?] at h
  | cons x rest ih =>
    by_cases hx : x._id = oid
    · simp [delete_one, hx]
    · have hfind : find_one (x :: rest) oid = find_one rest oid := by
        simp [find_one, List.find?_cons_of_neg, hx]
      rw [hfind] at h
      simpa [delete_one, hx] using ih h

theorem delete_one_filter {c : Collection} {oid : Nat}
    (hnd : (c.map HeroDoc._id).Nodup) :
    (delete_one c oid).1 = c.filter (fun d => d._id != oid) := by
  induction c with
  | nil => rfl
  | cons x rest ih =>
    rw [List.map_cons, List.nodup_cons] at hnd
    obtain ⟨hx, hrest⟩ := hnd
    by_cases hxo : x._id = oid
    · have hall : rest.filter (fun d => d._id != oid) = rest :=
        List.filter_eq_self.mpr (fun a ha => by
          have hane : a._id ≠ oid := by
            intro heq
            exact hx (List.mem_map.mpr ⟨a, ha, by rw [heq, hxo]⟩)
          simpa using hane)
      simp [delete_one, hxo, hall]
    · simp [delete_one, hxo, ih hrest]

theorem find_one_delete_one {c : Collection} {oid : Nat}
    (hnd : (c.map HeroDoc._id).Nodup) :
    find_one (delete_one c oid).1 oid = none := by
  rw [delete_one_filter hnd, find_one_eq_none]
  intro d hd
  have := List.of_mem_filter hd
  simpa using this

/-! ## Endpoints -/

/-- Body of a successful `DELETE /heroes/{hero_id}` response,
the literal `{"ok": True}`. -/
structure OkResponse where
  ok : Bool
deriving Repr, DecidableEq

/-- `create_hero` handler body: dump the validated hero without its `id`,
insert it (the store assigns `newId`), and return `Hero(**hero_dict)`
with the assigned `_id` filled in. -/
def create_hero (hero : Hero) (c : Collection) (newId : Nat) : Collection × Hero :=
  let hero_dict : HeroDoc :=
    { _id := newId, name := some hero.name, age := hero.age,
      secret_name := some hero.secret_name }
  (insert_one c hero_dict, ⟨some newId, hero.name, hero.age, hero.secret_name⟩)

/-- `POST /heroes/` endpoint: pydantic body validation (422 on a missing
required field, propagated `InvalidId` on a malformed body id; either
way nothing is inserted), then the `create_hero` handler. -/
def create_hero_endpoint (body : RawHero) (c : Collection) (newId : Nat) :
    Collection × Except HTTPError Hero :=
  match validateHero body with
  | .error e => (c, .error e)
  | .ok hero =>
    let r := create_hero hero c newId
    (r.1, .ok r.2)

/-- `GET /heroes/` handler (`read_heroes`): `Query(le=100)` rejects
`limit > 100` with 422 before the handler runs; otherwise the documents
`collection.find().skip(skip).limit(limit)` are each re-validated with
`Hero(**document)` and collected in order. -/
def read_heroes (c : Collection) (skip limit : Int) : Except HTTPError (List Hero) :=
  if 100 < limit then .error .validation
  else
    match docsToHeroes (pyTakeTo (pyDropFrom c skip) limit) with
    | none => .error .serverError
    | some heroes => .ok heroes
where
  /-- The `async for document in cursor: heroes.append(Hero(**document))`
  loop; a document failing re-validation raises (500). -/
  docsToHeroes : List HeroDoc → Option (List Hero)
    | [] => some []
    | d :: rest =>
      match Hero.ofDoc d, docsToHeroes rest with
      | some h, some hs => some (h :: hs)
      | _, _ => none

/-- `GET /heroes/{hero_id}` handler (`read_hero`): parse the id (400 on
failure), `find_one` (404 when absent), and return `Hero(**hero)`. -/
def read_hero (hero_id : String) (c : Collection) : Except HTTPError Hero :=
  match ObjectId.parse hero_id with
  | none => .error .badRequest
  | some object_id =>
    match find_one c object_id with
    | none => .error .notFound
    | some hero =>
      match Hero.ofDoc hero with
      | none => .error .serverError
      | some h => .ok h

/-- `PATCH /heroes/{hero_id}` handler (`update_hero`): parse the id (400
on failure); when at least one field is set, run `update_one` and fail
404 when it matched nothing; then re-fetch by id (404 when absent) and
return `Hero(**updated_hero)`.  Also returns the resulting collection. -/
def update_hero (hero_id : String) (hero : HeroUpdate) (c : Collection) :
    Collection × Except HTTPError Hero :=
  match ObjectId.parse hero_id with
  | none => (c, .error .badRequest)
  | some object_id =>
    if 1 ≤ numSet hero then
      let c2 := (update_one c object_id hero).1
      if (update_one c object_id hero).2 = 0 then (c2, .error .notFound)
      else
        match find_one c2 object_id with
        | none => (c2, .error .notFound)
        | some updated_hero =>
          match Hero.ofDoc updated_hero with
          | none => (c2, .error .serverError)
          | some h => (c2, .ok h)
    else
      match find_one c object_id with
      | none => (c, .error .notFound)
      | some updated_hero =>
        match Hero.ofDoc updated_hero with
        | none => (c, .error .serverError)
        | some h => (c, .ok h)

/-- `DELETE /heroes/{hero_id}` handler (`delete_hero`): parse the id
(400 on failure), `delete_one`, 404 when nothing was deleted, else
`{"ok": True}`.  Also returns the resulting collection. -/
def delete_hero (hero_id : String) (c : Collection) :
    Collection × Except HTTPError OkResponse :=
  match ObjectId.parse hero_id with
  | none => (c, .error .badRequest)
  | some object_id =>
    if (delete_one c object_id).2 = 0 then ((delete_one c object_id).1, .error .notFound)
    else ((delete_one c object_id).1, .ok ⟨true⟩)

instance {e a : Type _} [DecidableEq e] [DecidableEq a] : DecidableEq (Except e a) := fun x y =>
  match x, y with
  | .error u, .error v =>
    if h : u = v then isTrue (by rw [h]) else isFalse (by intro hc; cases hc; exact h rfl)
  | .error _, .ok _ => isFalse (by intro hc; cases hc)
  | .ok _, .error _ => isFalse (by intro hc; cases hc)
  | .ok u, .ok v =>
    if h : u = v then isTrue (by rw [h]) else isFalse (by intro hc; cases hc; exact h rfl)

/-! ## Endpoint lemmas -/

theorem docsToHeroes_length {l : List HeroDoc} {hs : List Hero}
    (h : read_heroes.docsToHeroes l = some hs) : hs.length = l.length := by
  induction l generalizing hs with
  | nil =>
    simp only [read_heroes.docsToHeroes] at h
    cases h
    rfl
  | cons d rest ih =>
    simp only [read_heroes.docsToHeroes] at h
    cases hod : Hero.ofDoc d with
    | none => rw [hod] at h; cases h
    | some hd =>
      rw [hod] at h
      cases hrest : read_heroes.docsToHeroes rest with
      | none => rw [hrest] at h; cases h
      | some tl =>
        rw [hrest] at h
        cases h
        simp [ih hrest]

theorem docsToHeroes_total {l : List HeroDoc}
    (h : ∀ d ∈ l, (Hero.ofDoc d).isSome) :
    ∃ hs, read_heroes.docsToHeroes l = some hs := by
  induction l with
  | nil => exact ⟨[], rfl⟩
  | cons d rest ih =>
    obtain ⟨hd, hhd⟩ := Option.isSome_iff_exists.mp (h d (by simp))
    obtain ⟨tl, htl⟩ := ih fun x hx => h x (by simp [hx])
    exact ⟨hd :: tl, by simp [read_heroes.docsToHeroes, hhd, htl]⟩

/-! ## Claims -/

/-- C1: For every Hero successfully created via `POST /heroes/`, an
immediately following `GET /heroes/{id}` using the identifier returned by
the create yields a record equal to the created one (same `name`,
`secret_name`, `age`, and `id`). -/
theorem create_then_read_roundtrip (hero : Hero) (c : Collection) (newId : Nat)
    (hlt : newId < 2 ^ 96) (hfresh : ∀ d ∈ c, d._id ≠ newId) :
    read_hero (oidToString newId) (create_hero hero c newId).1 =
      .ok (create_hero hero c newId).2 ∧
    (create_hero hero c newId).2 =
      ⟨some newId, hero.name, hero.age, hero.secret_name⟩ := by
  refine ⟨?_, rfl⟩
  have hparse := parse_oidToString hlt
  have hdoc : find_one (c ++ [⟨newId, some hero.name, hero.age, some hero.secret_name⟩])
      newId = some ⟨newId, some hero.name, hero.age, some hero.secret_name⟩ :=
    find_one_append_fresh hfresh rfl
  simp [read_hero, hparse, create_hero, insert_one, hdoc, Hero.ofDoc]

theorem create_then_read_roundtrip_witness :
    read_hero (oidToString 0)
        (create_hero ⟨none, "Deadpond", some 30, "Dive Wilson"⟩ [] 0).1 =
      .ok (create_hero ⟨none, "Deadpond", some 30, "Dive Wilson"⟩ [] 0).2 ∧
    (create_hero ⟨none, "Deadpond", some 30, "Dive Wilson"⟩ [] 0).2 =
      ⟨some 0, "Deadpond", some 30, "Dive Wilson"⟩ :=
  create_then_read_roundtrip ⟨none, "Deadpond", some 30, "Dive Wilson"⟩ [] 0
    (by decide) (by simp)

/-- C2: A `PATCH /heroes/{id}` with a well-formed identifier whose body has
zero set fields skips the store mutation entirely (the collection is
unchanged), still re-fetches, and answers 200 with the current record when
it exists; 404 is reported only when the record is absent at the
re-fetch. -/
theorem update_empty_changeset (s : String) (oid : Nat) (u : HeroUpdate) (c : Collection)
    (hp : ObjectId.parse s = some oid) (h0 : numSet u = 0) :
    (update_hero s u c).1 = c ∧
    (find_one c oid = none → (update_hero s u c).2 = .error .notFound) ∧
    (∀ d h, find_one c oid = some d → Hero.ofDoc d = some h →
      (update_hero s u c).2 = .ok h) := by
  have h1 : ¬ 1 ≤ numSet u := by omega
  refine ⟨?_, ?_, ?_⟩
  · cases hfo : find_one c oid with
    | none => simp [update_hero, hp, h1, hfo]
    | some d =>
      cases hod : Hero.ofDoc d with
      | none => simp [update_hero, hp, h1, hfo, hod]
      | some h => simp [update_hero, hp, h1, hfo, hod]
  · intro hn
    simp [update_hero, hp, h1, hn]
  · intro d h hd hh
    simp [update_hero, hp, h1, hd, hh]

theorem update_empty_changeset_witness :
    (update_hero "000000000000000000000000" ⟨none, none, none⟩
        [⟨0, some "Deadpond", some 30, some "Dive Wilson"⟩]).1 =
      [⟨0, some "Deadpond", some 30, some "Dive Wilson"⟩] ∧
    (update_hero "000000000000000000000000" ⟨none, none, none⟩
        [⟨0, some "Deadpond", some 30, some "Dive Wilson"⟩]).2 =
      .ok ⟨some 0, "Deadpond", some 30, "Dive Wilson"⟩ :=
  ⟨(update_empty_changeset "000000000000000000000000" 0 ⟨none, none, none⟩
      [⟨0, some "Deadpond", some 30, some "Dive Wilson"⟩] (by decide) rfl).1,
   (update_empty_changeset "000000000000000000000000" 0 ⟨none, none, none⟩
      [⟨0, some "Deadpond", some 30, some "Dive Wilson"⟩] (by decide) rfl).2.2
     ⟨0, some "Deadpond", some 30, some "Dive Wilson"⟩
     ⟨some 0, "Deadpond", some 30, "Dive Wilson"⟩ (by decide) rfl⟩

/-- C4: For every `GET`, `PATCH`, or `DELETE` on `/heroes/{id}` whose path
identifier is not a syntactically valid `ObjectId`, the response is 400
("Invalid hero ID format") and no store operation is performed (the
collection is returned unchanged, for every collection alike). -/
theorem invalid_id_rejected (s : String) (c : Collection) (u : HeroUpdate)
    (h : ObjectId.parse s = none) :
    read_hero s c = .error .badRequest ∧
    update_hero s u c = (c, .error .badRequest) ∧
    delete_hero s c = (c, .error .badRequest) := by
  refine ⟨?_, ?_, ?_⟩ <;> simp [read_hero, update_hero, delete_hero, h]

theorem invalid_id_rejected_witness :
    read_hero "invalid-id" [⟨0, some "Deadpond", some 30, some "Dive Wilson"⟩] =
      .error .badRequest ∧
    update_hero "invalid-id" ⟨some (some "Updated"), none, none⟩
        [⟨0, some "Deadpond", some 30, some "Dive Wilson"⟩] =
      ([⟨0, some "Deadpond", some 30, some "Dive Wilson"⟩], .error .badRequest) ∧
    delete_hero "invalid-id" [⟨0, some "Deadpond", some 30, some "Dive Wilson"⟩] =
      ([⟨0, some "Deadpond", some 30, some "Dive Wilson"⟩], .error .badRequest) :=
  invalid_id_rejected "invalid-id" [⟨0, some "Deadpond", some 30, some "Dive Wilson"⟩]
    ⟨some (some "Updated"), none, none⟩ (by decide)

/-- C5: For every existing Hero, a `PATCH /heroes/{id}` whose body sets
`name` and `age` returns a record with exactly those fields updated and
`secret_name` and `id` (the fields omitted from the body) unchanged from
the stored record. -/
theorem update_sets_name_age (s : String) (oid : Nat) (c : Collection) (d : HeroDoc)
    (newName : String) (newAge : Int) (sn : String)
    (hp : ObjectId.parse s = some oid) (hfind : find_one c oid = some d)
    (hsn : d.secret_name = some sn) :
    (update_hero s ⟨some (some newName), some (some newAge), none⟩ c).2 =
      .ok ⟨some d._id, newName, some newAge, sn⟩ := by
  obtain ⟨hm, hf⟩ := update_one_of_found ⟨some (some newName), some (some newAge), none⟩ hfind
  have h1 : 1 ≤ numSet (⟨some (some newName), some (some newAge), none⟩ : HeroUpdate) := by
    simp [numSet]
  have hm0 : ¬ ((update_one c oid ⟨some (some newName), some (some newAge), none⟩).2 = 0) := by
    omega
  have happ : applySet ⟨some (some newName), some (some newAge), none⟩ d =
      ⟨d._id, some newName, some newAge, d.secret_name⟩ := rfl
  rw [happ] at hf
  simp [update_hero, hp, h1, hm0, hf, Hero.ofDoc, hsn]

theorem update_sets_name_age_witness :
    (update_hero "000000000000000000000000"
        ⟨some (some "Deadpond Updated"), some (some 31), none⟩
        [⟨0, some "Deadpond", some 30, some "Dive Wilson"⟩]).2 =
      .ok ⟨some 0, "Deadpond Updated", some 31, "Dive Wilson"⟩ :=
  update_sets_name_age "000000000000000000000000" 0
    [⟨0, some "Deadpond", some 30, some "Dive Wilson"⟩]
    ⟨0, some "Deadpond", some 30, some "Dive Wilson"⟩
    "Deadpond Updated" 31 "Dive Wilson" (by decide) (by decide) rfl

/-- C6: For every well-formed identifier that names no record,
`DELETE /heroes/{id}` answers 404 and `PATCH /heroes/{id}` with at least
one set field answers 404; in both cases the collection is unchanged. -/
theorem wellformed_absent_not_found (s : String) (oid : Nat) (c : Collection)
    (u : HeroUpdate) (hp : ObjectId.parse s = some oid)
    (habs : find_one c oid = none) (hset : 1 ≤ numSet u) :
    delete_hero s c = (c, .error .notFound) ∧
    update_hero s u c = (c, .error .notFound) := by
  have hdel := delete_one_of_not_found habs
  have hupd := update_one_of_not_found u habs
  constructor
  · simp [delete_hero, hp, hdel]
  · simp [update_hero, hp, hset, hupd]

theorem wellformed_absent_not_found_witness :
    delete_hero "000000000000000000000000"
        [⟨1, some "Deadpond", some 30, some "Dive Wilson"⟩] =
      ([⟨1, some "Deadpond", some 30, some "Dive Wilson"⟩], .error .notFound) ∧
    update_hero "000000000000000000000000" ⟨some (some "Updated"), none, none⟩
        [⟨1, some "Deadpond", some 30, some "Dive Wilson"⟩] =
      ([⟨1, some "Deadpond", some 30, some "Dive Wilson"⟩], .error .notFound) :=
  wellformed_absent_not_found "000000000000000000000000" 0
    [⟨1, some "Deadpond", some 30, some "Dive Wilson"⟩]
    ⟨some (some "Updated"), none, none⟩ (by decide) (by decide) (by decide)

/-- C7: For every existing Hero, `DELETE /heroes/{id}` answers 200 with
`{"ok": true}` and removes exactly that record (under the spec's
uniqueness invariant on stored identifiers the resulting collection keeps
precisely the documents with a different identifier); a subsequent
`GET /heroes/{id}` on the same identifier answers 404. -/
theorem delete_existing_then_read (c : Collection) (oid : Nat) (d : HeroDoc)
    (hlt : oid < 2 ^ 96) (hfind : find_one c oid = some d)
    (hnd : (c.map HeroDoc._id).Nodup) :
    delete_hero (oidToString oid) c =
      (c.filter (fun x => x._id != oid), .ok ⟨true⟩) ∧
    read_hero (oidToString oid) (delete_hero (oidToString oid) c).1 =
      .error .notFound := by
  have hp := parse_oidToString hlt
  have h1 := delete_one_of_found hfind
  have hfil := @delete_one_filter c oid hnd
  have hnone := @find_one_delete_one c oid hnd
  have hdel : delete_hero (oidToString oid) c = ((delete_one c oid).1, .ok ⟨true⟩) := by
    have hm0 : ¬ ((delete_one c oid).2 = 0) := by omega
    simp [delete_hero, hp, hm0]
  refine ⟨by rw [hdel, hfil], ?_⟩
  rw [hdel]
  simp [read_hero, hp, hnone]

theorem delete_existing_then_read_witness :
    delete_hero (oidToString 0) [⟨0, some "Deadpond", some 30, some "Dive Wilson"⟩] =
      ([⟨0, some "Deadpond", some 30, some "Dive Wilson"⟩].filter (fun x => x._id != 0),
        .ok ⟨true⟩) ∧
    read_hero (oidToString 0)
        (delete_hero (oidToString 0) [⟨0, some "Deadpond", some 30, some "Dive Wilson"⟩]).1 =
      .error .notFound :=
  delete_existing_then_read [⟨0, some "Deadpond", some 30, some "Dive Wilson"⟩] 0
    ⟨0, some "Deadpond", some 30, some "Dive Wilson"⟩
    (by decide) (by decide) (by decide)

/-- C10: For every `PATCH /heroes/{id}` on an existing record, a field
explicitly present in the body with value null (here `age`) counts as a
set field: the mutation is attempted and overwrites the stored value of
that field with null, while fields entirely absent from the body (here
`name` and `secret_name`) keep their stored values. -/
theorem patch_explicit_null_vs_absent (s : String) (oid : Nat) (c : Collection)
    (d : HeroDoc) (hp : ObjectId.parse s = some oid)
    (hfind : find_one c oid = some d) :
    find_one (update_hero s ⟨none, some none, none⟩ c).1 oid =
      some ⟨d._id, d.name, none, d.secret_name⟩ := by
  obtain ⟨hm, hf⟩ := update_one_of_found ⟨none, some none, none⟩ hfind
  have h1 : 1 ≤ numSet (⟨none, some none, none⟩ : HeroUpdate) := by simp [numSet]
  have hm0 : ¬ ((update_one c oid ⟨none, some none, none⟩).2 = 0) := by omega
  have hst : (update_hero s ⟨none, some none, none⟩ c).1 =
      (update_one c oid ⟨none, some none, none⟩).1 := by
    cases hfo : find_one (update_one c oid ⟨none, some none, none⟩).1 oid with
    | none => simp [update_hero, hp, h1, hm0, hfo]
    | some x =>
      cases hox : Hero.ofDoc x with
      | none => simp [update_hero, hp, h1, hm0, hfo, hox]
      | some h => simp [update_hero, hp, h1, hm0, hfo, hox]
  rw [hst, hf]
  rfl

theorem patch_explicit_null_vs_absent_witness :
    find_one (update_hero "000000000000000000000000" ⟨none, some none, none⟩
        [⟨0, some "Deadpond", some 30, some "Dive Wilson"⟩]).1 0 =
      some ⟨0, some "Deadpond", none, some "Dive Wilson"⟩ :=
  patch_explicit_null_vs_absent "000000000000000000000000" 0
    [⟨0, some "Deadpond", some 30, some "Dive Wilson"⟩]
    ⟨0, some "Deadpond", some 30, some "Dive Wilson"⟩ (by decide) (by decide)

/-- C3 counterexample: a `GET /heroes/` request with `limit = 101` is
answered with a 422 validation error (`Query(le=100)`), not with a 200
array — the server rejects an over-cap limit instead of clamping it. -/
theorem read_heroes_limit_overflow_cex :
    read_heroes [⟨0, some "Deadpond", some 30, some "Dive Wilson"⟩] 0 101 =
      .error .validation := by
  decide

/-- C3 (amended): `limit > 100` is rejected with 422 rather than clamped;
for `0 ≤ limit` every 200 response to `GET /heroes/` is an array of
length at most `min limit 100`; and for `0 ≤ skip`, `0 ≤ limit ≤ 100` on
a collection whose documents all re-validate, the response is a 200
array.  (`limit` defaults to 100 and `skip` to 0 in the source.) -/
theorem read_heroes_paginates (c : Collection) (skip limit : Int) :
    (100 < limit → read_heroes c skip limit = .error .validation) ∧
    (0 ≤ limit → ∀ hs, read_heroes c skip limit = .ok hs →
      (hs.length : Int) ≤ min limit 100) ∧
    (0 ≤ skip → 0 ≤ limit → limit ≤ 100 →
      (∀ d ∈ c, (Hero.ofDoc d).isSome) →
      ∃ hs, read_heroes c skip limit = .ok hs) := by
  refine ⟨?_, ?_, ?_⟩
  · intro h
    simp [read_heroes, h]
  · intro h0 hs hok
    by_cases hgt : 100 < limit
    · simp [read_heroes, hgt] at hok
    · simp only [read_heroes, if_neg hgt] at hok
      cases hdh : read_heroes.docsToHeroes (pyTakeTo (pyDropFrom c skip) limit) with
      | none => rw [hdh] at hok; cases hok
      | some hs2 =>
        rw [hdh] at hok
        injection hok with hok
        subst hok
        have hlen := docsToHeroes_length hdh
        have htk : (pyTakeTo (pyDropFrom c skip) limit).length ≤ limit.toNat := by
          rw [pyTakeTo, if_pos h0]
          simp [List.length_take]
        rw [min_eq_left (by omega : limit ≤ (100 : Int))]
        omega
  · intro hs0 hl0 hle hval
    have hgt : ¬ (100 < limit) := by omega
    have hsub : ∀ d ∈ pyTakeTo (pyDropFrom c skip) limit, (Hero.ofDoc d).isSome := by
      intro d hd
      apply hval
      have h1 : pyTakeTo (pyDropFrom c skip) limit ⊆ pyDropFrom c skip := by
        rw [pyTakeTo, if_pos hl0]
        exact List.take_subset _ _
      have h2 : pyDropFrom c skip ⊆ c := by
        rw [pyDropFrom, if_pos hs0]
        exact List.drop_subset _ _
      exact h2 (h1 hd)
    obtain ⟨hs, hhs⟩ := docsToHeroes_total hsub
    exact ⟨hs, by simp [read_heroes, hgt, hhs]⟩

theorem read_heroes_paginates_witness :
    read_heroes [⟨0, some "a", none, some "b"⟩, ⟨1, some "c", none, some "d"⟩] 5 101 =
      .error .validation ∧
    ∃ hs, read_heroes [⟨0, some "a", none, some "b"⟩, ⟨1, some "c", none, some "d"⟩]
      0 2 = .ok hs :=
  ⟨(read_heroes_paginates [⟨0, some "a", none, some "b"⟩, ⟨1, some "c", none, some "d"⟩]
      5 101).1 (by decide),
   (read_heroes_paginates [⟨0, some "a", none, some "b"⟩, ⟨1, some "c", none, some "d"⟩]
      0 2).2.2 (by decide) (by decide) (by decide) (by decide)⟩

/-- C8 counterexample: a `POST /heroes/` body with `name` and
`secret_name` present and `age` omitted, but whose `id` field is the
malformed string `"invalid-id"`, does not succeed: the `PyObjectId`
chain validator runs `ObjectId` on it, which raises
`bson.errors.InvalidId` — not a `ValueError`, so pydantic propagates it
and the request fails as an unhandled exception (500), nothing inserted.
A client-supplied id is therefore not always ignored. -/
theorem create_malformed_body_id_raises_cex :
    create_hero_endpoint
        ⟨some (some "invalid-id"), some (some "Deadpond"), none, some (some "Dive Wilson")⟩
        [] 0 =
      ([], .error .serverError) := by
  decide

/-- C8 (amended): for every `POST /heroes/` body containing `name` and
`secret_name`, omitting `age`, and whose `id` field is absent, null, or a
syntactically valid identifier, the create succeeds, the returned record
has `age = null` and the newly store-assigned, non-empty identifier, and
the client-supplied `id` is ignored (the outcome is the same in all three
`id` cases); a body with a malformed `id` string instead fails with an
unhandled `bson.errors.InvalidId` exception out of the `PyObjectId`
validator (a 500 server error, not a 422). -/
theorem create_ignores_id_defaults_age (r : RawHero) (c : Collection) (newId : Nat)
    (n sn : String)
    (hn : r.name = some (some n)) (hsn : r.secret_name = some (some sn))
    (hage : r.age = none)
    (hid : r.id = none ∨ r.id = some none ∨
      ∃ s oid, r.id = some (some s) ∧ ObjectId.parse s = some oid) :
    create_hero_endpoint r c newId =
      (c ++ [⟨newId, some n, none, some sn⟩], .ok ⟨some newId, n, none, sn⟩) ∧
    oidToString newId ≠ "" := by
  constructor
  · rcases hid with h | h | ⟨s, oid, h, hps⟩
    · simp [create_hero_endpoint, validateHero, hn, hsn, hage, h, create_hero, insert_one]
    · simp [create_hero_endpoint, validateHero, hn, hsn, hage, h, create_hero, insert_one]
    · simp [create_hero_endpoint, validateHero, hn, hsn, hage, h, hps, create_hero,
        insert_one]
  · intro heq
    have hl := oidToString_length newId
    rw [heq] at hl
    simp at hl

theorem create_ignores_id_defaults_age_witness :
    create_hero_endpoint ⟨none, some (some "Deadpond"), none, some (some "Dive Wilson")⟩
        [] 7 =
      ([] ++ [⟨7, some "Deadpond", none, some "Dive Wilson"⟩],
        .ok ⟨some 7, "Deadpond", none, "Dive Wilson"⟩) ∧
    oidToString 7 ≠ "" :=
  create_ignores_id_defaults_age
    ⟨none, some (some "Deadpond"), none, some (some "Dive Wilson")⟩ [] 7
    "Deadpond" "Dive Wilson" rfl rfl rfl (Or.inl rfl)

/-- C9 counterexample: the code does not enforce non-emptiness (or, after
updates, presence) of `name`/`secret_name`.  A create whose `name` is the
empty string succeeds and persists a record with an empty name, and a
`PATCH` setting `name` to null persists a record whose `name` is absent. -/
theorem persisted_empty_or_null_name_cex :
    create_hero_endpoint ⟨none, some (some ""), none, some (some "Dive Wilson")⟩ [] 0 =
      ([⟨0, some "", none, some "Dive Wilson"⟩], .ok ⟨some 0, "", none, "Dive Wilson"⟩) ∧
    (update_hero "000000000000000000000000" ⟨some none, none, none⟩
        [⟨0, some "Deadpond", some 30, some "Dive Wilson"⟩]).1 =
      [⟨0, none, some 30, some "Dive Wilson"⟩] := by
  decide

theorem validateHero_missing_required (r : RawHero)
    (hmiss : r.name = none ∨ r.name = some none ∨
      r.secret_name = none ∨ r.secret_name = some none) :
    (∀ h, validateHero r ≠ .ok h) ∧
    ((r.id = none ∨ r.id = some none ∨
        ∃ s oid, r.id = some (some s) ∧ ObjectId.parse s = some oid) →
      validateHero r = .error .validation) := by
  constructor
  · intro h hok
    rcases hid : r.id with _ | (_ | s)
    · rcases hmiss with hm | hm | hm | hm <;>
        rcases hr1 : r.name with _ | (_ | n1) <;>
        rcases hr2 : r.secret_name with _ | (_ | n2) <;>
          simp_all [validateHero]
    · rcases hmiss with hm | hm | hm | hm <;>
        rcases hr1 : r.name with _ | (_ | n1) <;>
        rcases hr2 : r.secret_name with _ | (_ | n2) <;>
          simp_all [validateHero]
    · rcases hps : ObjectId.parse s with _ | oid
      · simp_all [validateHero]
      · rcases hmiss with hm | hm | hm | hm <;>
          rcases hr1 : r.name with _ | (_ | n1) <;>
          rcases hr2 : r.secret_name with _ | (_ | n2) <;>
            simp_all [validateHero]
  · intro hgood
    rcases hgood with hid | hid | ⟨s, oid, hid, hps⟩ <;>
      rcases hmiss with hm | hm | hm | hm <;>
        rcases hr1 : r.name with _ | (_ | n1) <;>
        rcases hr2 : r.secret_name with _ | (_ | n2) <;>
          simp_all [validateHero]

/-- C9 (amended): every Hero persisted by a create carries a present
string `name` and `secret_name` (possibly empty, and a later update may
null them); a create missing a required field — `name` or `secret_name`
absent or null — persists nothing and never succeeds: when the body `id`
is absent, null, or well-formed it is rejected with a 422 validation
error, while a malformed body `id` makes the request fail earlier with
the propagated `InvalidId` exception (500) instead. -/
theorem create_requires_name_and_secret (r : RawHero) (c : Collection) (newId : Nat) :
    ((r.name = none ∨ r.name = some none ∨
        r.secret_name = none ∨ r.secret_name = some none) →
      (create_hero_endpoint r c newId).1 = c ∧
      (∀ h, (create_hero_endpoint r c newId).2 ≠ .ok h) ∧
      ((r.id = none ∨ r.id = some none ∨
          ∃ s oid, r.id = some (some s) ∧ ObjectId.parse s = some oid) →
        create_hero_endpoint r c newId = (c, .error .validation))) ∧
    (∀ c2 h, create_hero_endpoint r c newId = (c2, .ok h) →
      c2 = c ++ [⟨newId, some h.name, h.age, some h.secret_name⟩]) := by
  constructor
  · intro hmiss
    obtain ⟨hnotok, h422⟩ := validateHero_missing_required r hmiss
    refine ⟨?_, ?_, ?_⟩
    · cases hv : validateHero r with
      | error e => simp [create_hero_endpoint, hv]
      | ok hero => exact absurd hv (hnotok hero)
    · intro h hok
      cases hv : validateHero r with
      | error e => simp [create_hero_endpoint, hv] at hok
      | ok hero => exact hnotok hero hv
    · intro hgood
      simp [create_hero_endpoint, h422 hgood]
  · intro c2 h hok
    cases hv : validateHero r with
    | error e => simp [create_hero_endpoint, hv] at hok
    | ok hero =>
      simp only [create_hero_endpoint, hv] at hok
      rw [Prod.mk.injEq] at hok
      obtain ⟨h1, h2⟩ := hok
      injection h2 with h2
      subst h2
      rw [← h1]
      rfl

theorem create_requires_name_and_secret_witness :
    create_hero_endpoint ⟨none, none, none, some (some "Dive Wilson")⟩ [] 0 =
      ([], .error .validation) ∧
    ([⟨0, some "Deadpond", some 30, some "Dive Wilson"⟩] : Collection) =
      [] ++ [⟨0, some "Deadpond", some 30, some "Dive Wilson"⟩] :=
  ⟨((create_requires_name_and_secret ⟨none, none, none, some (some "Dive Wilson")⟩
      [] 0).1 (Or.inl rfl)).2.2 (Or.inl rfl),
   (create_requires_name_and_secret
      (⟨none, some (some "Deadpond"), some (some 30), some (some "Dive Wilson")⟩ : RawHero)
      [] 0).2
      ([⟨0, some "Deadpond", some 30, some "Dive Wilson"⟩] : Collection)
      (⟨some 0, "Deadpond", some 30, "Dive Wilson"⟩ : Hero) (by decide)⟩
